import Mathlib

/-!
Shallow embedding of the TrackNest server query layer (server/routes/api.js).

Tables are lists of rows; SQL queries over them are translated into
executable Lean functions.  Each route handler that the claims mention is
embedded as a function from a database state (plus the request inputs and
the identity attached by the authentication middleware) to either an
`ApiErr` (HTTP status and message, exactly as the handler sends them) or a
success value.  Timestamps and chart dates are modelled as natural numbers;
`bcrypt.compare` and `jwt.verify` are modelled as explicit function
parameters, since the spec treats hashing and token signing as given
library calls.
-/

/-- Row of the `Song` table: composite key (songTitle, artistName, albumTitle)
with `duration` and `plays` attributes. -/
structure Song where
  songTitle : String
  artistName : String
  albumTitle : String
  duration : Nat
  plays : Nat
deriving DecidableEq

/-- Row of the `Album` table (the columns the queries use: title and artist). -/
structure Album where
  albumTitle : String
  artistName : String
deriving DecidableEq

/-- Row of the `Classification` table: assigns a genre to a song triple. -/
structure Classification where
  songTitle : String
  artistName : String
  albumTitle : String
  genreName : String
deriving DecidableEq

/-- Row of the `UserLike` table: a user's like of a song triple, with date. -/
structure UserLike where
  username : String
  songTitle : String
  artistName : String
  albumTitle : String
  likeDate : Nat
deriving DecidableEq

/-- Row of the `Playlist` table: composite key (name, username). -/
structure Playlist where
  name : String
  username : String
  creationDate : Nat
deriving DecidableEq

/-- Row of the `TopChart` table: key (chartName, chartDate). -/
structure TopChart where
  chartName : String
  chartDate : Nat
deriving DecidableEq

/-- Row of the `ChartEntry` table: a song on a chart at a date. -/
structure ChartEntry where
  chartName : String
  chartDate : Nat
  songTitle : String
  artistName : String
  albumTitle : String
deriving DecidableEq

/-- Row of the `User` table (columns the login/profile queries use). -/
structure User where
  username : String
  email : String
  password : String
  bio : String
deriving DecidableEq

/-- The database state: one list per table.  The `Artist` and `Genre`
tables are modelled by the single column each query reads from them. -/
structure DB where
  songs : List Song
  artists : List String
  albums : List Album
  genres : List String
  classifications : List Classification
  userLikes : List UserLike
  playlists : List Playlist
  topCharts : List TopChart
  chartEntries : List ChartEntry
  users : List User
deriving DecidableEq

/-- An error response: HTTP status code and JSON `message`, exactly as the
handler sends them with `res.status(...).json({ message: ... })`. -/
structure ApiErr where
  status : Nat
  message : String
deriving DecidableEq

instance {ε α : Type} [DecidableEq ε] [DecidableEq α] : DecidableEq (Except ε α) :=
  fun x y =>
    match x, y with
    | .ok a, .ok b =>
      if h : a = b then .isTrue (by rw [h]) else .isFalse (by simp [h])
    | .error a, .error b =>
      if h : a = b then .isTrue (by rw [h]) else .isFalse (by simp [h])
    | .ok _, .error _ => .isFalse (by simp)
    | .error _, .ok _ => .isFalse (by simp)

/-! ## Likes (POST /api/likes, DELETE /api/likes) -/

/-- The `SELECT * FROM Song WHERE songTitle = ? AND artistName = ? AND
albumTitle = ?` existence check. -/
def songExists (db : DB) (t a l : String) : Prop :=
  ∃ s ∈ db.songs, s.songTitle = t ∧ s.artistName = a ∧ s.albumTitle = l

instance (db : DB) (t a l : String) : Decidable (songExists db t a l) :=
  List.decidableBEx _ _

/-- The `SELECT * FROM UserLike WHERE username = ? AND songTitle = ? AND
artistName = ? AND albumTitle = ?` existence check. -/
def likedTriple (db : DB) (u t a l : String) : Prop :=
  ∃ ul ∈ db.userLikes,
    ul.username = u ∧ ul.songTitle = t ∧ ul.artistName = a ∧ ul.albumTitle = l

instance (db : DB) (u t a l : String) : Decidable (likedTriple db u t a l) :=
  List.decidableBEx _ _

/-- Whether a `UserLike` row matches the (username, song triple) key used by
the unlike DELETE statement. -/
def ulMatches (u t a l : String) (ul : UserLike) : Prop :=
  ul.username = u ∧ ul.songTitle = t ∧ ul.artistName = a ∧ ul.albumTitle = l

instance (u t a l : String) (ul : UserLike) : Decidable (ulMatches u t a l ul) := by
  unfold ulMatches; infer_instance

/-- Error sent by both POST and DELETE /api/likes when a body field is
missing (JS falsiness; the empty string models a missing field). -/
def likeMissingErr : ApiErr :=
  ⟨400, "Please provide songTitle, artistName, and albumTitle."⟩

/-- Error sent by POST /api/likes when the song is absent (404). -/
def songNotFoundErr : ApiErr := ⟨404, "Song not found."⟩

/-- Error sent by POST /api/likes when the song is already liked (the
spec's `Conflict`). -/
def alreadyLikedErr : ApiErr := ⟨400, "Song is already liked."⟩

/-- Error sent by DELETE /api/likes when the pair is not in UserLike (404). -/
def notLikedErr : ApiErr := ⟨404, "Song is not in your liked songs."⟩

/-- POST /api/likes for authenticated user `u`: reject a missing body
field (400), check the song exists (404 otherwise), check it is not
already liked (400 otherwise), then `INSERT INTO UserLike (..., likeDate)
VALUES (..., CURRENT_TIMESTAMP)`. -/
def likeSong (db : DB) (u t a l : String) (now : Nat) : Except ApiErr DB :=
  if t = "" ∨ a = "" ∨ l = "" then .error likeMissingErr
  else if ¬ songExists db t a l then .error songNotFoundErr
  else if likedTriple db u t a l then .error alreadyLikedErr
  else .ok { db with userLikes := db.userLikes ++ [⟨u, t, a, l, now⟩] }

/-- DELETE /api/likes for authenticated user `u`: reject a missing body
field (400), check the pair is in UserLike (404 otherwise), then
`DELETE FROM UserLike WHERE username = ? AND songTitle = ? AND
artistName = ? AND albumTitle = ?`. -/
def unlikeSong (db : DB) (u t a l : String) : Except ApiErr DB :=
  if t = "" ∨ a = "" ∨ l = "" then .error likeMissingErr
  else if ¬ likedTriple db u t a l then .error notLikedErr
  else .ok { db with userLikes := db.userLikes.filter fun ul => ¬ ulMatches u t a l ul }

/-! ## Playlist creation (POST /api/playlists) -/

/-- The `SELECT name FROM Playlist WHERE name = ? AND username = ?`
existence check. -/
def playlistExists (db : DB) (u name : String) : Prop :=
  ∃ p ∈ db.playlists, p.name = name ∧ p.username = u

instance (db : DB) (u name : String) : Decidable (playlistExists db u name) :=
  List.decidableBEx _ _

/-- Error sent by POST /api/playlists when the name field is missing. -/
def playlistMissingErr : ApiErr := ⟨400, "Please provide a playlist name."⟩

/-- Error sent by POST /api/playlists on a duplicate (name, username)
pair (the spec's `Conflict`). -/
def playlistConflictErr : ApiErr := ⟨400, "Playlist with this name already exists."⟩

/-- POST /api/playlists for authenticated user `u`: reject a missing
name (400), reject a duplicate (name, username) pair, otherwise
`INSERT INTO Playlist (name, username, creationDate)
VALUES (?, ?, CURRENT_TIMESTAMP)`. -/
def createPlaylist (db : DB) (u name : String) (now : Nat) : Except ApiErr DB :=
  if name = "" then .error playlistMissingErr
  else if playlistExists db u name then .error playlistConflictErr
  else .ok { db with playlists := db.playlists ++ [⟨name, u, now⟩] }

/-! ## Search (GET /api/search) -/

/-- A row of the search result: the columns selected by the search query. -/
structure SearchRow where
  songTitle : String
  artistName : String
  albumTitle : String
  genreName : String
  plays : Nat
  duration : Nat
deriving DecidableEq

/-- Checks whether the character list `p` occurs at the head of `h`. -/
def charsAtHead : List Char → List Char → Bool
  | _, [] => true
  | [], _ :: _ => false
  | a :: h, b :: p => a == b && charsAtHead h p

/-- Checks whether the character list `p` occurs somewhere inside `h`. -/
def charsHaveSub : List Char → List Char → Bool
  | _, [] => true
  | [], _ :: _ => false
  | a :: h, b :: p => charsAtHead (a :: h) (b :: p) || charsHaveSub h (b :: p)

/-- The `toUpperCase()` of the handler, over the character list of the
string. -/
def jsToUpper (s : String) : String := ⟨s.data.map Char.toUpper⟩

/-- Character-wise lower-casing, over the character list of the string. -/
def jsToLower (s : String) : String := ⟨s.data.map Char.toLower⟩

/-- The SQL `column LIKE '%pat%'` test: a case-insensitive substring
match (the store compares strings case-insensitively). -/
def sqlLike (hay pat : String) : Bool :=
  charsHaveSub (jsToLower hay).data (jsToLower pat).data

/-- The FROM/JOIN clause of the search query: Song joined to Artist, to
Album on (albumTitle, artistName), to Classification on the song triple,
and to Genre on genreName.  One result row per combination of matching
rows, as in SQL. -/
def searchJoinRows (db : DB) : List SearchRow :=
  db.songs.flatMap fun s =>
    db.artists.flatMap fun ar =>
      if s.artistName = ar then
        db.albums.flatMap fun al =>
          if s.albumTitle = al.albumTitle ∧ s.artistName = al.artistName then
            db.classifications.flatMap fun c =>
              if c.songTitle = s.songTitle ∧ c.artistName = s.artistName ∧
                  c.albumTitle = s.albumTitle then
                db.genres.filterMap fun g =>
                  if c.genreName = g then
                    some ⟨s.songTitle, ar, al.albumTitle, g, s.plays, s.duration⟩
                  else none
              else []
          else []
      else []

/-- One optional `AND column LIKE '%v%'` filter: the handler appends it
only when the query parameter is present and non-empty (JS truthiness). -/
def optFilter (v : Option String) (f : String → SearchRow → Bool)
    (rows : List SearchRow) : List SearchRow :=
  match v with
  | none => rows
  | some s => if s = "" then rows else rows.filter (f s)

/-- The song titles in the user's UserLike rows: the subquery
`SELECT songTitle FROM UserLike WHERE username = ?`.  Note the handler
compares by `songTitle` alone, not by the full song triple. -/
def likedTitles (db : DB) (u : String) : List String :=
  (db.userLikes.filter fun ul => ul.username == u).map (·.songTitle)

/-- The sorting direction: ascending exactly when the sortOrder parameter
is present and uppercases to `ASC` (`sortOrder && sortOrder.toUpperCase()
=== 'ASC'`); otherwise the default, descending. -/
def sortAsc (o : Option String) : Bool :=
  match o with
  | none => false
  | some s => jsToUpper s == "ASC"

/-- Ascending comparison on play counts. -/
def playsAsc (a b : SearchRow) : Prop := a.plays ≤ b.plays

/-- Descending comparison on play counts. -/
def playsDesc (a b : SearchRow) : Prop := b.plays ≤ a.plays

instance : DecidableRel playsAsc := fun a b =>
  inferInstanceAs (Decidable (a.plays ≤ b.plays))

instance : DecidableRel playsDesc := fun a b =>
  inferInstanceAs (Decidable (b.plays ≤ a.plays))

instance : IsTotal SearchRow playsAsc := ⟨fun a b => Nat.le_total a.plays b.plays⟩

instance : IsTrans SearchRow playsAsc :=
  ⟨fun _ _ _ h1 h2 => Nat.le_trans h1 h2⟩

instance : IsTotal SearchRow playsDesc := ⟨fun a b => Nat.le_total b.plays a.plays⟩

instance : IsTrans SearchRow playsDesc :=
  ⟨fun _ _ _ h1 h2 => Nat.le_trans h2 h1⟩

/-- `ORDER BY Song.plays ASC` or `ORDER BY Song.plays DESC`. -/
def sortByPlays (asc : Bool) (rows : List SearchRow) : List SearchRow :=
  if asc then rows.insertionSort playsAsc else rows.insertionSort playsDesc

/-- The query parameters of GET /api/search; `none` models an absent
parameter. -/
structure SearchQuery where
  songTitle : Option String
  artistName : Option String
  albumTitle : Option String
  genreName : Option String
  sortOrder : Option String
  liked : Option String
deriving DecidableEq

/-- The search query with every parameter absent. -/
def emptyQuery : SearchQuery := ⟨none, none, none, none, none, none⟩

/-- Error sent by GET /api/search when `liked=true` has no identity. -/
def searchUnauthorizedErr : ApiErr :=
  ⟨401, "Authentication required to filter liked songs."⟩

/-- The join rows after the four optional LIKE filters of the request
have been applied, innermost first, in the order the handler appends
them. -/
def searchFiltered (db : DB) (q : SearchQuery) : List SearchRow :=
  optFilter q.genreName (fun v r => sqlLike r.genreName v)
    (optFilter q.albumTitle (fun v r => sqlLike r.albumTitle v)
      (optFilter q.artistName (fun v r => sqlLike r.artistName v)
        (optFilter q.songTitle (fun v r => sqlLike r.songTitle v)
          (searchJoinRows db))))

/-- GET /api/search, run behind the optional-auth middleware: `user` is
the identity it attached (the decoded username), or `none`.  Applies the
four optional LIKE filters, then — when `liked === 'true'` — requires an
identity and restricts to songs whose title is in the user's UserLike
titles, then orders by play count. -/
def search (db : DB) (user : Option String) (q : SearchQuery) :
    Except ApiErr (List SearchRow) :=
  if q.liked = some "true" then
    if user.getD "" = "" then .error searchUnauthorizedErr
    else
      .ok (sortByPlays (sortAsc q.sortOrder)
        ((searchFiltered db q).filter fun r =>
          (likedTitles db (user.getD "")).contains r.songTitle))
  else
    .ok (sortByPlays (sortAsc q.sortOrder) (searchFiltered db q))

/-! ## Top charts (GET /api/top-charts, .../dates, .../songs) -/

/-- A row of the song listings shared by the charts and likes routes:
the five columns `songTitle, artistName, albumTitle, duration, plays`. -/
structure SongView where
  songTitle : String
  artistName : String
  albumTitle : String
  duration : Nat
  plays : Nat
deriving DecidableEq

/-- Descending comparison on play counts for song views. -/
def viewPlaysDesc (a b : SongView) : Prop := b.plays ≤ a.plays

instance : DecidableRel viewPlaysDesc := fun a b =>
  inferInstanceAs (Decidable (b.plays ≤ a.plays))

instance : IsTotal SongView viewPlaysDesc := ⟨fun a b => Nat.le_total b.plays a.plays⟩

instance : IsTrans SongView viewPlaysDesc :=
  ⟨fun _ _ _ h1 h2 => Nat.le_trans h2 h1⟩

/-- Newest-first comparison on chart dates. -/
def dateDesc (a b : Nat) : Prop := b ≤ a

instance : DecidableRel dateDesc := fun a b => inferInstanceAs (Decidable (b ≤ a))

instance : IsTotal Nat dateDesc := ⟨fun a b => Nat.le_total b a⟩

instance : IsTrans Nat dateDesc := ⟨fun _ _ _ h1 h2 => Nat.le_trans h2 h1⟩

/-- GET /api/top-charts: `SELECT DISTINCT chartName FROM TopChart`.  The
handler always answers 200 with the (possibly empty) list. -/
def topChartNamesStep (db : DB) : Except ApiErr (List String) :=
  .ok ((db.topCharts.map (·.chartName)).dedup)

/-- Error sent by GET /api/top-charts/:name/dates when no row matches. -/
def chartDatesNotFoundErr : ApiErr :=
  ⟨404, "Top chart not found or no dates available."⟩

/-- The `SELECT chartDate FROM TopChart WHERE chartName = ? ORDER BY
chartDate DESC` result list of the dates step. -/
def chartDatesOf (db : DB) (name : String) : List Nat :=
  (db.topCharts.filterMap fun r =>
    if r.chartName = name then some r.chartDate else none).insertionSort dateDesc

/-- GET /api/top-charts/:name/dates: the dates query above, answering 404
when its result is empty. -/
def topChartDatesStep (db : DB) (name : String) : Except ApiErr (List Nat) :=
  if (chartDatesOf db name).length = 0 then .error chartDatesNotFoundErr
  else .ok (chartDatesOf db name)

/-- Error sent by GET /api/top-charts/:name/:date/songs when no TopChart
row matches the pair. -/
def chartSongsNotFoundErr : ApiErr :=
  ⟨404, "Top chart not found for the specified name and date."⟩

/-- The `FROM ChartEntry JOIN Song ON (triple) WHERE chartName = ? AND
chartDate = ?` join of the chart songs query. -/
def chartEntryJoin (db : DB) (name : String) (date : Nat) : List SongView :=
  db.chartEntries.flatMap fun e =>
    if e.chartName = name ∧ e.chartDate = date then
      db.songs.filterMap fun s =>
        if e.songTitle = s.songTitle ∧ e.artistName = s.artistName ∧
            e.albumTitle = s.albumTitle then
          some ⟨s.songTitle, s.artistName, s.albumTitle, s.duration, s.plays⟩
        else none
    else []

/-- GET /api/top-charts/:name/:date/songs: first `SELECT * FROM TopChart
WHERE chartName = ? AND chartDate = ?` (404 when empty), then the
ChartEntry/Song join ordered by `Song.plays DESC`. -/
def topChartSongsStep (db : DB) (name : String) (date : Nat) :
    Except ApiErr (List SongView) :=
  if (db.topCharts.filter fun r => r.chartName = name ∧ r.chartDate = date).length = 0
  then .error chartSongsNotFoundErr
  else .ok ((chartEntryJoin db name date).insertionSort viewPlaysDesc)

/-! ## Login (POST /api/login) -/

/-- The success payload of POST /api/login: the public profile fields
returned alongside the signed token. -/
structure LoginOk where
  username : String
  email : String
  bio : String
deriving DecidableEq

/-- Error sent by POST /api/login when either email or password is
missing (JS falsiness of the body fields). -/
def loginMissingErr : ApiErr := ⟨400, "Please provide email and password."⟩

/-- The single generic error sent by POST /api/login both when no user
has the given email and when the hash comparison fails. -/
def invalidCredErr : ApiErr := ⟨400, "Invalid email or password."⟩

/-- POST /api/login.  `verify plain hashed` models `bcrypt.compare`; the
handler takes the first row of `SELECT * FROM User WHERE email = ?`. -/
def login (db : DB) (verify : String → String → Bool) (email password : String) :
    Except ApiErr LoginOk :=
  if email = "" ∨ password = "" then .error loginMissingErr
  else
    match db.users.filter fun us => us.email == email with
    | [] => .error invalidCredErr
    | us :: _ =>
      if verify password us.password then .ok ⟨us.username, us.email, us.bio⟩
      else .error invalidCredErr

/-! ## Optional authentication middleware (authOptional) -/

/-- The identity a verified token carries: `{ id, email }` where `id` is
the username. -/
structure AuthUser where
  id : String
  email : String
deriving DecidableEq

/-- Outcome of running a middleware on a request: either control passes
to the handler with an optional identity attached, or the middleware
answers an error itself and processing stops. -/
inductive MwResult where
  | proceed (user : Option AuthUser)
  | reject (err : ApiErr)
deriving DecidableEq

/-- The authOptional middleware.  `verify` models `jwt.verify` (returning
the decoded identity or a thrown error message); `token` is the
`x-auth-token` header.  No token: continue anonymously.  Token verifies:
attach identity and continue.  Verification throws: log and continue
anonymously — the error is never sent to the caller. -/
def authOptional (verify : String → Except String AuthUser)
    (token : Option String) : MwResult :=
  match token with
  | none => .proceed none
  | some t =>
    match verify t with
    | .ok u => .proceed (some u)
    | .error _ => .proceed none

/-! ## Recommendations (GET /api/recommendations) -/

/-- A row of the recommendations result: the selected song columns, its
genre from Classification, and the aggregate score. -/
structure RecRow where
  songTitle : String
  artistName : String
  albumTitle : String
  duration : Nat
  plays : Nat
  genreName : String
  score : Nat
deriving DecidableEq

/-- The `SELECT DISTINCT artistName FROM UserLike WHERE username = ?`
subquery (alias `a`). -/
def likedArtists (db : DB) (u : String) : List String :=
  ((db.userLikes.filter fun ul => ul.username == u).map (·.artistName)).dedup

/-- The `SELECT DISTINCT albumTitle FROM UserLike WHERE username = ?`
subquery (alias `al`). -/
def likedAlbums (db : DB) (u : String) : List String :=
  ((db.userLikes.filter fun ul => ul.username == u).map (·.albumTitle)).dedup

/-- The `SELECT DISTINCT c2.genreName FROM UserLike ul JOIN Classification
c2 ON (triple) WHERE ul.username = ?` subquery (alias `g`). -/
def likedGenres (db : DB) (u : String) : List String :=
  ((db.userLikes.filter fun ul => ul.username == u).flatMap fun ul =>
    db.classifications.filterMap fun c =>
      if c.songTitle = ul.songTitle ∧ c.artistName = ul.artistName ∧
          c.albumTitle = ul.albumTitle then
        some c.genreName
      else none).dedup

/-- `COUNT(DISTINCT a.artistName)` for the group of a song with artist
`x`: the LEFT JOIN matches the rows of `a` equal to `x`, and the
aggregate counts them without duplicates. -/
def artistMatches (db : DB) (u x : String) : Nat :=
  (((likedArtists db u).filter fun a => a == x).dedup).length

/-- `COUNT(DISTINCT al.albumTitle)` for the group of a song with album
`x`. -/
def albumMatches (db : DB) (u x : String) : Nat :=
  (((likedAlbums db u).filter fun a => a == x).dedup).length

/-- `COUNT(DISTINCT g.genreName)` for the group of a song classified with
genre `x`. -/
def genreMatches (db : DB) (u x : String) : Nat :=
  (((likedGenres db u).filter fun a => a == x).dedup).length

/-- The score expression of the recommendations query:
`3*COUNT(DISTINCT a.artistName) + 2*COUNT(DISTINCT al.albumTitle) +
1*COUNT(DISTINCT g.genreName)`. -/
def scoreOf (db : DB) (u artist album genre : String) : Nat :=
  3 * artistMatches db u artist + 2 * albumMatches db u album +
    1 * genreMatches db u genre

/-- The grouped rows of the recommendations query before the HAVING
clause: one group per distinct (song columns, genreName) combination
coming from Song joined to Classification, restricted by the
`WHERE NOT EXISTS (... UserLike ...)` clause to songs the caller has not
liked, each carrying its aggregate score. -/
def recRows (db : DB) (u : String) : List RecRow :=
  (db.songs.flatMap fun s =>
    db.classifications.filterMap fun c =>
      if (c.songTitle = s.songTitle ∧ c.artistName = s.artistName ∧
            c.albumTitle = s.albumTitle) ∧
          ¬ likedTriple db u s.songTitle s.artistName s.albumTitle then
        some ⟨s.songTitle, s.artistName, s.albumTitle, s.duration, s.plays,
          c.genreName, scoreOf db u s.artistName s.albumTitle c.genreName⟩
      else none).dedup

/-- The `ORDER BY score DESC, s.plays DESC` comparison. -/
def recGE (a b : RecRow) : Prop :=
  b.score < a.score ∨ (a.score = b.score ∧ b.plays ≤ a.plays)

instance : DecidableRel recGE := fun a b =>
  inferInstanceAs
    (Decidable (b.score < a.score ∨ (a.score = b.score ∧ b.plays ≤ a.plays)))

instance : IsTotal RecRow recGE := by
  constructor
  intro a b
  rcases Nat.lt_trichotomy a.score b.score with h | h | h
  · exact Or.inr (Or.inl h)
  · rcases Nat.le_total a.plays b.plays with hp | hp
    · exact Or.inr (Or.inr ⟨h.symm, hp⟩)
    · exact Or.inl (Or.inr ⟨h, hp⟩)
  · exact Or.inl (Or.inl h)

instance : IsTrans RecRow recGE := by
  constructor
  intro a b c hab hbc
  rcases hab with h1 | ⟨h1, h1p⟩
  · rcases hbc with h2 | ⟨h2, _⟩
    · exact Or.inl (Nat.lt_trans h2 h1)
    · exact Or.inl (h2 ▸ h1)
  · rcases hbc with h2 | ⟨h2, h2p⟩
    · exact Or.inl (h1 ▸ h2)
    · exact Or.inr ⟨h1.trans h2, Nat.le_trans h2p h1p⟩

/-- GET /api/recommendations for authenticated user `u`: the grouped
scored rows, kept by `HAVING score > 0`, ordered by
`score DESC, plays DESC`. -/
def recommendations (db : DB) (u : String) : List RecRow :=
  ((recRows db u).filter fun r => 0 < r.score).insertionSort recGE

/-! ## Concrete fixtures used to instantiate the theorems -/

/-- The empty database. -/
def dbEmpty : DB := ⟨[], [], [], [], [], [], [], [], [], []⟩

/-- A catalog with a single song and no likes or playlists. -/
def dbA : DB := { dbEmpty with songs := [⟨"t1", "a1", "l1", 200, 10⟩] }

/-- A catalog with two fully cross-referenced songs, plays 1 and 2. -/
def dbSort : DB :=
  { dbEmpty with
    songs := [⟨"t1", "a", "l", 100, 1⟩, ⟨"t2", "a", "l", 100, 2⟩]
    artists := ["a"]
    albums := [⟨"l", "a"⟩]
    genres := ["g"]
    classifications := [⟨"t1", "a", "l", "g"⟩, ⟨"t2", "a", "l", "g"⟩] }

/-- A catalog with two songs sharing the title `T`, where user `u` has
liked only the one by artist `A1`. -/
def dbLiked : DB :=
  { dbEmpty with
    songs := [⟨"T", "A1", "L1", 100, 5⟩, ⟨"T", "A2", "L2", 100, 7⟩]
    artists := ["A1", "A2"]
    albums := [⟨"L1", "A1"⟩, ⟨"L2", "A2"⟩]
    genres := ["g"]
    classifications := [⟨"T", "A1", "L1", "g"⟩, ⟨"T", "A2", "L2", "g"⟩]
    userLikes := [⟨"u", "T", "A1", "L1", 0⟩] }

/-- The search query that only sets `liked=true`. -/
def qLiked : SearchQuery := { emptyQuery with liked := some "true" }

/-- A database with one chart on two dates and one chart entry. -/
def dbChart : DB :=
  { dbEmpty with
    songs := [⟨"t1", "a1", "l1", 200, 10⟩]
    topCharts := [⟨"Hot", 2⟩, ⟨"Hot", 1⟩]
    chartEntries := [⟨"Hot", 2, "t1", "a1", "l1"⟩] }

/-- A database with a single registered user. -/
def dbU2 : DB :=
  { dbEmpty with users := [⟨"u", "e@x.com", "h", "b"⟩] }

/-- A hash comparison that always fails (models a wrong password). -/
def vfalse : String → String → Bool := fun _ _ => false

/-- A token verification that always throws (models an invalid token). -/
def badVerify : String → Except String AuthUser := fun _ => .error "jwt malformed"

/-- A catalog where user `u` liked the song `s1` by artist `A`, and the
song `s2` by the same artist is not yet liked. -/
def dbRec : DB :=
  { dbEmpty with
    songs := [⟨"s1", "A", "L1", 100, 3⟩, ⟨"s2", "A", "L2", 100, 9⟩]
    classifications := [⟨"s1", "A", "L1", "g1"⟩, ⟨"s2", "A", "L2", "g2"⟩]
    userLikes := [⟨"u", "s1", "A", "L1", 0⟩] }

/-! ## Theorems -/

/-- C3: for every authenticated user and every provided song triple (the
handlers first answer 400 when a body field is missing; the empty string
models a missing field), the like operation fails with NotFound (404,
"Song not found.") exactly when the song is not in the catalog, fails
with Conflict (400, "Song is already liked.") exactly when the pair is
already in UserLike, and otherwise appends exactly that UserLike row; the
unlike operation fails with NotFound (404) exactly when the pair is not
in UserLike, and otherwise removes exactly the matching rows, keeping
every other row; with a missing field both operations answer the
validation 400 instead. -/
theorem likes_spec (db : DB) (u t a l : String) (now : Nat)
    (ht : t ≠ "") (ha : a ≠ "") (hl : l ≠ "") :
    (likeSong db u t a l now = .error songNotFoundErr ↔ ¬ songExists db t a l)
    ∧ (likeSong db u t a l now = .error alreadyLikedErr ↔
        songExists db t a l ∧ likedTriple db u t a l)
    ∧ (songExists db t a l → ¬ likedTriple db u t a l →
        likeSong db u t a l now =
          .ok { db with userLikes := db.userLikes ++ [⟨u, t, a, l, now⟩] })
    ∧ (unlikeSong db u t a l = .error notLikedErr ↔ ¬ likedTriple db u t a l)
    ∧ (likedTriple db u t a l →
        unlikeSong db u t a l =
          .ok { db with
            userLikes := db.userLikes.filter fun ul => ¬ ulMatches u t a l ul })
    ∧ (∀ ul, ul ∈ (db.userLikes.filter fun ul => ¬ ulMatches u t a l ul) ↔
        ul ∈ db.userLikes ∧ ¬ ulMatches u t a l ul)
    ∧ (∀ t2 a2 l2, t2 = "" ∨ a2 = "" ∨ l2 = "" →
        likeSong db u t2 a2 l2 now = .error likeMissingErr ∧
          unlikeSong db u t2 a2 l2 = .error likeMissingErr) := by
  have hv : ¬ (t = "" ∨ a = "" ∨ l = "") := by
    push_neg
    exact ⟨ht, ha, hl⟩
  refine ⟨?_, ?_, ?_, ?_, ?_, ?_, ?_⟩
  · unfold likeSong
    rw [if_neg hv]
    split_ifs with h1 h2 <;>
      simp_all [songNotFoundErr, alreadyLikedErr]
  · unfold likeSong
    rw [if_neg hv]
    split_ifs with h1 h2 <;>
      simp_all [songNotFoundErr, alreadyLikedErr]
  · intro hs hn
    unfold likeSong
    rw [if_neg hv, if_neg (not_not_intro hs), if_neg hn]
  · unfold unlikeSong
    rw [if_neg hv]
    split_ifs with h1 <;> simp_all
  · intro hlk
    unfold unlikeSong
    rw [if_neg hv, if_neg (not_not_intro hlk)]
  · intro ul
    simp [List.mem_filter]
  · intro t2 a2 l2 hmiss
    constructor
    · unfold likeSong
      rw [if_pos hmiss]
    · unfold unlikeSong
      rw [if_pos hmiss]

/-- Witness for C3 at a concrete database: liking the only song of `dbA`
inserts exactly the new UserLike row. -/
theorem likes_spec_witness :
    likeSong dbA "u" "t1" "a1" "l1" 5 =
      .ok { dbA with userLikes := dbA.userLikes ++ [⟨"u", "t1", "a1", "l1", 5⟩] } :=
  (likes_spec dbA "u" "t1" "a1" "l1" 5
    (by decide) (by decide) (by decide)).2.2.1 (by decide) (by decide)

/-- C4: starting from a state where the song exists with its (provided,
non-empty) triple and is not liked by the user, liking and then unliking
the same triple restores the starting database state exactly. -/
theorem like_unlike_roundtrip (db : DB) (u t a l : String) (now : Nat)
    (ht : t ≠ "") (ha : a ≠ "") (hle : l ≠ "")
    (hs : songExists db t a l) (hn : ¬ likedTriple db u t a l) :
    ∃ db', likeSong db u t a l now = .ok db' ∧ unlikeSong db' u t a l = .ok db := by
  have hv : ¬ (t = "" ∨ a = "" ∨ l = "") := by
    push_neg
    exact ⟨ht, ha, hle⟩
  refine ⟨{ db with userLikes := db.userLikes ++ [⟨u, t, a, l, now⟩] }, ?_, ?_⟩
  · unfold likeSong
    rw [if_neg hv, if_neg (not_not_intro hs), if_neg hn]
  · have hl2 : likedTriple { db with userLikes := db.userLikes ++ [⟨u, t, a, l, now⟩] }
        u t a l :=
      ⟨⟨u, t, a, l, now⟩, by simp, rfl, rfl, rfl, rfl⟩
    unfold unlikeSong
    rw [if_neg hv, if_neg (not_not_intro hl2)]
    have hfilter :
        (db.userLikes ++ [(⟨u, t, a, l, now⟩ : UserLike)]).filter
            (fun ul => ¬ ulMatches u t a l ul) = db.userLikes := by
      rw [List.filter_append]
      have h1 : db.userLikes.filter (fun ul => decide (¬ ulMatches u t a l ul)) =
          db.userLikes := by
        rw [List.filter_eq_self]
        intro ul hul
        simp only [decide_eq_true_eq]
        intro hm
        exact hn ⟨ul, hul, hm.1, hm.2.1, hm.2.2.1, hm.2.2.2⟩
      rw [h1]
      simp [ulMatches]
    rw [hfilter]

/-- Witness for C4: liking then unliking the only song of `dbA` as user
`u` restores `dbA`. -/
theorem like_unlike_roundtrip_witness :
    ∃ db', likeSong dbA "u" "t1" "a1" "l1" 5 = .ok db' ∧
      unlikeSong db' "u" "t1" "a1" "l1" = .ok dbA :=
  like_unlike_roundtrip dbA "u" "t1" "a1" "l1" 5
    (by decide) (by decide) (by decide) (by decide) (by decide)

/-- C5: for every provided (non-empty) playlist name (the handler first
answers 400 when the name field is missing; the empty string models a
missing field), creating a playlist fails with Conflict (400, "Playlist
with this name already exists.") exactly when a playlist with that
(name, username) pair already exists, and otherwise appends the playlist
row with the current timestamp; creating the same name twice for the
same user makes the second creation fail with Conflict, while creating
the same name for two different users succeeds for both; with a missing
name the handler answers the validation 400 instead. -/
theorem createPlaylist_spec (db : DB) (u name : String) (now : Nat)
    (hn : name ≠ "") :
    (createPlaylist db u name now = .error playlistConflictErr ↔
        playlistExists db u name)
    ∧ (¬ playlistExists db u name →
        createPlaylist db u name now =
          .ok { db with playlists := db.playlists ++ [⟨name, u, now⟩] })
    ∧ (∀ db', createPlaylist db u name now = .ok db' →
        ∀ now2, createPlaylist db' u name now2 = .error playlistConflictErr)
    ∧ (∀ u2 now2, u2 ≠ u → ¬ playlistExists db u name → ¬ playlistExists db u2 name →
        ∃ db' db'', createPlaylist db u name now = .ok db' ∧
          createPlaylist db' u2 name now2 = .ok db'')
    ∧ (∀ n2 : String, n2 = "" →
        createPlaylist db u n2 now = .error playlistMissingErr) := by
  refine ⟨?_, ?_, ?_, ?_, ?_⟩
  · unfold createPlaylist
    rw [if_neg hn]
    split_ifs with h <;> simp_all
  · intro h
    unfold createPlaylist
    rw [if_neg hn, if_neg h]
  · intro db' h now2
    unfold createPlaylist at h
    rw [if_neg hn] at h
    split_ifs at h with hx
    have hdb' : db' = { db with playlists := db.playlists ++ [⟨name, u, now⟩] } :=
      (Except.ok.inj h).symm
    subst hdb'
    have hex : playlistExists { db with playlists := db.playlists ++ [⟨name, u, now⟩] }
        u name := ⟨⟨name, u, now⟩, by simp, rfl, rfl⟩
    unfold createPlaylist
    rw [if_neg hn, if_pos hex]
  · intro u2 now2 hne h1 h2
    refine ⟨{ db with playlists := db.playlists ++ [⟨name, u, now⟩] },
      { db with playlists := db.playlists ++ [⟨name, u, now⟩] ++ [⟨name, u2, now2⟩] },
      ?_, ?_⟩
    · unfold createPlaylist
      rw [if_neg hn, if_neg h1]
    · have h2' : ¬ playlistExists { db with playlists := db.playlists ++ [⟨name, u, now⟩] }
          u2 name := by
        rintro ⟨p, hp, hpn, hpu⟩
        rcases List.mem_append.mp hp with hp' | hp'
        · exact h2 ⟨p, hp', hpn, hpu⟩
        · have : p = ⟨name, u, now⟩ := List.mem_singleton.mp hp'
          subst this
          exact hne hpu.symm
      unfold createPlaylist
      rw [if_neg hn, if_neg h2']
  · intro n2 hn2
    unfold createPlaylist
    rw [if_pos hn2]

/-- Witness for C5: creating playlist `p` for user `u` and then the same
name for user `w` on the like-free database `dbA` succeeds for both. -/
theorem createPlaylist_spec_witness :
    ∃ db' db'', createPlaylist dbA "u" "p" 1 = .ok db' ∧
      createPlaylist db' "w" "p" 2 = .ok db'' :=
  (createPlaylist_spec dbA "u" "p" 1 (by decide)).2.2.2.1 "w" 2
    (by decide) (by decide) (by decide)

/-- C8: a login failing because no user has the given email and a login
failing because the hash comparison rejects the password produce exactly
the same observable error — status 400 with the generic message
"Invalid email or password." -/
theorem login_indistinguishable (db1 db2 : DB) (v1 v2 : String → String → Bool)
    (e1 p1 e2 p2 : String)
    (he1 : e1 ≠ "") (hp1 : p1 ≠ "") (he2 : e2 ≠ "") (hp2 : p2 ≠ "")
    (h1 : db1.users.filter (fun us => us.email == e1) = [])
    (us : User) (rest : List User)
    (h2 : db2.users.filter (fun us => us.email == e2) = us :: rest)
    (hv : v2 p2 us.password = false) :
    login db1 v1 e1 p1 = .error invalidCredErr ∧
      login db2 v2 e2 p2 = .error invalidCredErr ∧
      login db1 v1 e1 p1 = login db2 v2 e2 p2 := by
  have g1 : login db1 v1 e1 p1 = .error invalidCredErr := by
    unfold login
    rw [if_neg (by simp [he1, hp1])]
    rw [h1]
  have g2 : login db2 v2 e2 p2 = .error invalidCredErr := by
    unfold login
    rw [if_neg (by simp [he2, hp2])]
    rw [h2]
    simp [hv]
  exact ⟨g1, g2, g1.trans g2.symm⟩

/-- Witness for C8: an unregistered email against the empty user table and
a wrong password against `dbU2` yield the same error. -/
theorem login_indistinguishable_witness :
    login dbEmpty vfalse "a@b.c" "pw" = .error invalidCredErr ∧
      login dbU2 vfalse "e@x.com" "pw2" = .error invalidCredErr ∧
      login dbEmpty vfalse "a@b.c" "pw" = login dbU2 vfalse "e@x.com" "pw2" := by
  have h := login_indistinguishable dbEmpty dbU2 vfalse vfalse
    "a@b.c" "pw" "e@x.com" "pw2"
    (by decide) (by decide) (by decide) (by decide)
    (by decide) ⟨"u", "e@x.com", "h", "b"⟩ [] (by decide) rfl
  exact h

/-- C9: the optional-auth middleware never rejects a request: with no
token it proceeds anonymously, and when token verification throws it also
proceeds anonymously, surfacing nothing to the caller. -/
theorem authOptional_spec (verify : String → Except String AuthUser)
    (token : Option String) :
    (∀ err, authOptional verify token ≠ .reject err)
    ∧ (token = none → authOptional verify token = .proceed none)
    ∧ (∀ t e, token = some t → verify t = .error e →
        authOptional verify token = .proceed none) := by
  refine ⟨?_, ?_, ?_⟩
  · intro err
    cases token with
    | none => simp [authOptional]
    | some t =>
      cases hv : verify t <;> simp [authOptional, hv]
  · intro h
    subst h
    rfl
  · intro t e ht he
    subst ht
    simp [authOptional, he]

/-- Witness for C9: a token whose verification throws is swallowed and the
request proceeds with no identity. -/
theorem authOptional_spec_witness :
    authOptional badVerify (some "x") = .proceed none :=
  (authOptional_spec badVerify (some "x")).2.2 "x" "jwt malformed" rfl rfl

/-- C6: the chart-names step never fails and returns the distinct chart
names (possibly empty); the dates step fails with NotFound exactly when
the chosen name has zero TopChart rows and otherwise returns that chart's
dates newest-first; the songs step fails with NotFound exactly when no
TopChart row matches the (name, date) pair and otherwise returns the
chart's songs ordered by play count descending. -/
theorem topCharts_spec (db : DB) (name : String) (date : Nat) :
    (∃ l, topChartNamesStep db = .ok l ∧ l.Nodup ∧
      ∀ n, n ∈ l ↔ n ∈ db.topCharts.map (·.chartName))
    ∧ (topChartDatesStep db name = .error chartDatesNotFoundErr ↔
        ¬ ∃ r ∈ db.topCharts, r.chartName = name)
    ∧ (∀ ds, topChartDatesStep db name = .ok ds →
        ds.Sorted dateDesc ∧
          ∀ d, d ∈ ds ↔ ∃ r ∈ db.topCharts, r.chartName = name ∧ r.chartDate = d)
    ∧ (topChartSongsStep db name date = .error chartSongsNotFoundErr ↔
        ¬ ∃ r ∈ db.topCharts, r.chartName = name ∧ r.chartDate = date)
    ∧ (∀ ss, topChartSongsStep db name date = .ok ss →
        ss.Sorted viewPlaysDesc ∧ ss.Perm (chartEntryJoin db name date)) := by
  refine ⟨⟨_, rfl, List.nodup_dedup _, fun n => List.mem_dedup⟩, ?_, ?_, ?_, ?_⟩
  · unfold topChartDatesStep
    split_ifs with h
    · unfold chartDatesOf at h
      simp only [List.length_insertionSort, List.length_eq_zero,
        List.filterMap_eq_nil_iff] at h
      constructor
      · rintro - ⟨r, hr, hname⟩
        have := h r hr
        rw [if_pos hname] at this
        exact Option.some_ne_none _ this
      · intro _
        rfl
    · unfold chartDatesOf at h
      simp only [List.length_insertionSort, List.length_eq_zero,
        List.filterMap_eq_nil_iff] at h
      constructor
      · intro hcontra
        exact absurd hcontra (by simp)
      · intro hne
        exfalso
        apply h
        intro r hr
        split_ifs with hname
        · exact absurd ⟨r, hr, hname⟩ hne
        · rfl
  · intro ds h
    unfold topChartDatesStep at h
    split_ifs at h with hl
    have hds : ds = chartDatesOf db name := (Except.ok.inj h).symm
    subst hds
    unfold chartDatesOf
    refine ⟨List.sorted_insertionSort _ _, ?_⟩
    intro d
    rw [List.mem_insertionSort, List.mem_filterMap]
    constructor
    · rintro ⟨r, hr, hif⟩
      by_cases hname : r.chartName = name
      · rw [if_pos hname] at hif
        exact ⟨r, hr, hname, Option.some.inj hif⟩
      · rw [if_neg hname] at hif
        exact absurd hif (Option.some_ne_none _).symm
    · rintro ⟨r, hr, hname, hd⟩
      exact ⟨r, hr, by rw [if_pos hname, hd]⟩
  · unfold topChartSongsStep
    split_ifs with h
    · rw [List.length_eq_zero, List.filter_eq_nil_iff] at h
      constructor
      · rintro - ⟨r, hr, hname, hdate⟩
        exact h r hr (by simp [hname, hdate])
      · intro _
        rfl
    · rw [List.length_eq_zero, List.filter_eq_nil_iff] at h
      constructor
      · intro hcontra
        exact absurd hcontra (by simp)
      · intro hne
        exfalso
        apply h
        intro r hr hcond
        rw [decide_eq_true_eq] at hcond
        exact hne ⟨r, hr, hcond⟩
  · intro ss h
    unfold topChartSongsStep at h
    split_ifs at h with hl
    have hss : ss = (chartEntryJoin db name date).insertionSort viewPlaysDesc :=
      (Except.ok.inj h).symm
    subst hss
    exact ⟨List.sorted_insertionSort _ _, List.perm_insertionSort _ _⟩

/-- Witness for C6 on `dbChart`: the dates of chart `Hot` come back
newest-first and are exactly the dates of its TopChart rows. -/
theorem topCharts_spec_witness :
    List.Sorted dateDesc [2, 1] ∧
      ∀ d, d ∈ [2, 1] ↔ ∃ r ∈ dbChart.topCharts, r.chartName = "Hot" ∧ r.chartDate = d :=
  (topCharts_spec dbChart "Hot" 2).2.2.1 [2, 1] (by decide)

/-- The ascending result of `sortByPlays true` is sorted ascending. -/
theorem sortByPlays_sorted_asc (l : List SearchRow) :
    (sortByPlays true l).Sorted playsAsc := by
  simpa [sortByPlays] using List.sorted_insertionSort playsAsc l

/-- The descending result of `sortByPlays false` is sorted descending. -/
theorem sortByPlays_sorted_desc (l : List SearchRow) :
    (sortByPlays false l).Sorted playsDesc := by
  simpa [sortByPlays] using List.sorted_insertionSort playsDesc l

/-- Sorting does not change the rows of a search result. -/
theorem mem_sortByPlays {b : Bool} {l : List SearchRow} {r : SearchRow} :
    r ∈ sortByPlays b l ↔ r ∈ l := by
  cases b <;> simp [sortByPlays, List.mem_insertionSort]

/-- Counterexample to C7 as stated: the parameter value `asc` is neither
`ASC` nor `DESC` nor absent, yet the result comes back in ascending play
order rather than falling back to descending. -/
theorem search_sortOrder_fallback_ce :
    search dbSort none { emptyQuery with sortOrder := some "asc" } =
      .ok [⟨"t1", "a", "l", "g", 1, 100⟩, ⟨"t2", "a", "l", "g", 2, 100⟩] ∧
      (some "asc" : Option String) ≠ some "ASC" ∧
      (some "asc" : Option String) ≠ some "DESC" ∧
      ¬ List.Sorted playsDesc
        [⟨"t1", "a", "l", "g", 1, 100⟩, ⟨"t2", "a", "l", "g", 2, 100⟩] := by
  refine ⟨by decide, by decide, by decide, ?_⟩
  intro hs
  have h12 := (List.pairwise_cons.mp hs).1
    (⟨"t2", "a", "l", "g", 2, 100⟩ : SearchRow) (by simp)
  exact absurd h12 (by decide)

/-- C7 (amended): every successful search is ordered by play count,
ascending exactly when the sortOrder value uppercases to `ASC`, and
descending otherwise — in particular for `DESC`, for an absent sortOrder,
and for any other value that does not case-insensitively equal `ASC`; a
search with no filters returns all join rows ordered by plays
descending. -/
theorem search_order_amended (db : DB) (user : Option String) (q : SearchQuery)
    (rows : List SearchRow) (h : search db user q = .ok rows) :
    (sortAsc q.sortOrder = true → rows.Sorted playsAsc)
    ∧ (sortAsc q.sortOrder = false → rows.Sorted playsDesc)
    ∧ sortAsc (some "ASC") = true
    ∧ sortAsc (some "DESC") = false
    ∧ sortAsc none = false
    ∧ (∀ o : String, sortAsc (some o) = true ↔ jsToUpper o = "ASC")
    ∧ ∃ l, search db user emptyQuery = .ok l ∧ l.Perm (searchJoinRows db)
        ∧ l.Sorted playsDesc := by
  have key : ∃ base, rows = sortByPlays (sortAsc q.sortOrder) base := by
    unfold search at h
    split_ifs at h with hl hu
    · exact ⟨_, (Except.ok.inj h).symm⟩
    · exact ⟨_, (Except.ok.inj h).symm⟩
  obtain ⟨base, hb⟩ := key
  subst hb
  refine ⟨?_, ?_, by decide, by decide, rfl, ?_, ?_⟩
  · intro ha
    rw [ha]
    exact sortByPlays_sorted_asc base
  · intro ha
    rw [ha]
    exact sortByPlays_sorted_desc base
  · intro o
    simp [sortAsc]
  · refine ⟨sortByPlays false (searchJoinRows db), rfl, ?_,
      sortByPlays_sorted_desc _⟩
    simpa [sortByPlays] using List.perm_insertionSort playsDesc (searchJoinRows db)

/-- Witness for the amended C7: a no-filter search on `dbSort` succeeds
and its two rows are in descending play order. -/
theorem search_order_amended_witness :
    List.Sorted playsDesc
      [⟨"t2", "a", "l", "g", 2, 100⟩, ⟨"t1", "a", "l", "g", 1, 100⟩] :=
  (search_order_amended dbSort none emptyQuery
    [⟨"t2", "a", "l", "g", 2, 100⟩, ⟨"t1", "a", "l", "g", 1, 100⟩] (by decide)).2.1 rfl

/-- Counterexample to C2 as stated: on `dbLiked`, user `u` has liked only
the song (T, A1, L1), yet a `liked=true` search also returns the song
(T, A2, L2), whose triple is not in the user's UserLike set — the filter
compares song titles only. -/
theorem search_liked_ce :
    search dbLiked (some "u") qLiked =
      .ok [⟨"T", "A2", "L2", "g", 7, 100⟩, ⟨"T", "A1", "L1", "g", 5, 100⟩] ∧
      ¬ likedTriple dbLiked "u" "T" "A2" "L2" :=
  ⟨by decide, by decide⟩

/-- C2 (amended): a `liked=true` search with no identity fails with
Unauthorized (401), and with an identity every returned row's songTitle
occurs among the titles of that user's UserLike rows. -/
theorem search_liked_amended (db : DB) (user : Option String) (q : SearchQuery)
    (hq : q.liked = some "true") :
    (user = none → search db user q = .error searchUnauthorizedErr)
    ∧ (∀ u rows, user = some u → search db user q = .ok rows →
        ∀ r ∈ rows, r.songTitle ∈ likedTitles db u) := by
  constructor
  · intro hu
    subst hu
    unfold search
    rw [if_pos hq]
    rfl
  · intro u rows hu h r hrmem
    subst hu
    unfold search at h
    rw [if_pos hq] at h
    split_ifs at h with hu0
    have hrows : rows = sortByPlays (sortAsc q.sortOrder)
        ((searchFiltered db q).filter fun r => (likedTitles db u).contains r.songTitle) :=
      (Except.ok.inj h).symm
    subst hrows
    rw [mem_sortByPlays] at hrmem
    have hc := (List.mem_filter.mp hrmem).2
    exact List.mem_of_elem_eq_true hc

/-- Witness for the amended C2: the title of every row returned by the
`liked=true` search on `dbLiked` is among user `u`'s liked titles. -/
theorem search_liked_amended_witness :
    "T" ∈ likedTitles dbLiked "u" :=
  (search_liked_amended dbLiked (some "u") qLiked rfl).2 "u"
    [⟨"T", "A2", "L2", "g", 7, 100⟩, ⟨"T", "A1", "L1", "g", 5, 100⟩] rfl (by decide)
    ⟨"T", "A2", "L2", "g", 7, 100⟩ (by decide)

/-- Every row of the recommendations result carries the aggregate score of
its group, a positive score, and a song the caller has not liked. -/
theorem mem_recommendations_props {db : DB} {u : String} {r : RecRow}
    (h : r ∈ recommendations db u) :
    r.score = scoreOf db u r.artistName r.albumTitle r.genreName
    ∧ 0 < r.score
    ∧ ¬ likedTriple db u r.songTitle r.artistName r.albumTitle := by
  unfold recommendations at h
  rw [List.mem_insertionSort, List.mem_filter] at h
  obtain ⟨hmem, hpos⟩ := h
  rw [decide_eq_true_eq] at hpos
  unfold recRows at hmem
  rw [List.mem_dedup, List.mem_flatMap] at hmem
  obtain ⟨s, hs, hmem⟩ := hmem
  rw [List.mem_filterMap] at hmem
  obtain ⟨c, hc, hif⟩ := hmem
  split_ifs at hif with hcond
  obtain ⟨hmatch, hnl⟩ := hcond
  have hr := Option.some.inj hif
  subst hr
  exact ⟨rfl, hpos, hnl⟩

/-- A per-dimension distinct-match count is 0 or 1: the filtered list
holds only copies of `x`, so its dedup has at most one element. -/
theorem count_distinct_le_one (l : List String) (x : String) :
    ((l.filter fun a => a == x).dedup).length ≤ 1 := by
  have hall : ∀ a ∈ (l.filter fun a => a == x).dedup, a = x := by
    intro a ha
    have hmem := List.mem_dedup.mp ha
    exact eq_of_beq (List.mem_filter.mp hmem).2
  have hnd := List.nodup_dedup (l.filter fun a => a == x)
  rcases hdd : (l.filter fun a => a == x).dedup with - | ⟨a, t⟩
  · simp
  · rw [hdd] at hall hnd
    have ht : t = [] := by
      by_contra hne
      obtain ⟨b, hb⟩ := List.exists_mem_of_ne_nil t hne
      have hba : b = a :=
        (hall b (List.mem_cons_of_mem _ hb)).trans (hall a (List.mem_cons_self _ _)).symm
      exact (List.nodup_cons.mp hnd).1 (hba ▸ hb)
    rw [ht]
    simp

/-- C1: every row of the recommendations result scores 3 times the
distinct matches against the caller's liked artists plus 2 times the
distinct matches against the liked albums plus 1 times the distinct
matches against the liked genres, has score > 0, and is a song the caller
has not liked; the result is ordered by score descending then play count
descending; and the formula instances hold: 2 artist matches and 0
album/genre matches give score 6, 1 artist plus 1 album match give 5. -/
theorem recommendations_spec (db : DB) (u : String) :
    (∀ r ∈ recommendations db u,
      r.score = 3 * artistMatches db u r.artistName
          + 2 * albumMatches db u r.albumTitle
          + 1 * genreMatches db u r.genreName
      ∧ 0 < r.score
      ∧ ¬ likedTriple db u r.songTitle r.artistName r.albumTitle
      ∧ (artistMatches db u r.artistName = 2 → albumMatches db u r.albumTitle = 0 →
          genreMatches db u r.genreName = 0 → r.score = 6)
      ∧ (artistMatches db u r.artistName = 1 → albumMatches db u r.albumTitle = 1 →
          genreMatches db u r.genreName = 0 → r.score = 5))
    ∧ (recommendations db u).Sorted recGE := by
  constructor
  · intro r hr
    obtain ⟨hform, hpos, hnl⟩ := mem_recommendations_props hr
    have hform' : r.score = 3 * artistMatches db u r.artistName
        + 2 * albumMatches db u r.albumTitle
        + 1 * genreMatches db u r.genreName := hform
    refine ⟨hform', hpos, hnl, ?_, ?_⟩
    · intro h1 h2 h3
      rw [hform', h1, h2, h3]
    · intro h1 h2 h3
      rw [hform', h1, h2, h3]
  · unfold recommendations
    exact List.sorted_insertionSort _ _

/-- Witness for C1 on `dbRec`: the returned row for song `s2` scores
exactly 3·artist + 2·album + 1·genre distinct matches. -/
theorem recommendations_spec_witness :
    (⟨"s2", "A", "L2", 100, 9, "g2", 3⟩ : RecRow).score =
      3 * artistMatches dbRec "u" "A" + 2 * albumMatches dbRec "u" "L2"
        + 1 * genreMatches dbRec "u" "g2" :=
  ((recommendations_spec dbRec "u").1 ⟨"s2", "A", "L2", 100, 9, "g2", 3⟩ (by decide)).1

/-- C10: in every recommendations row, each scoring dimension contributes
at most one distinct match, so the returned score lies between 1 and 6
inclusive. -/
theorem recommendations_score_bounds (db : DB) (u : String) :
    ∀ r ∈ recommendations db u,
      artistMatches db u r.artistName ≤ 1
      ∧ albumMatches db u r.albumTitle ≤ 1
      ∧ genreMatches db u r.genreName ≤ 1
      ∧ 1 ≤ r.score ∧ r.score ≤ 6 := by
  intro r hr
  obtain ⟨hform, hpos, -⟩ := mem_recommendations_props hr
  have ha : artistMatches db u r.artistName ≤ 1 := count_distinct_le_one _ _
  have hb : albumMatches db u r.albumTitle ≤ 1 := count_distinct_le_one _ _
  have hg : genreMatches db u r.genreName ≤ 1 := count_distinct_le_one _ _
  refine ⟨ha, hb, hg, hpos, ?_⟩
  have hform' : r.score = 3 * artistMatches db u r.artistName
      + 2 * albumMatches db u r.albumTitle
      + 1 * genreMatches db u r.genreName := hform
  rw [hform']
  omega

/-- Witness for C10 on `dbRec`: the returned row for song `s2` has a
score between 1 and 6. -/
theorem recommendations_score_bounds_witness :
    1 ≤ (⟨"s2", "A", "L2", 100, 9, "g2", 3⟩ : RecRow).score ∧
      (⟨"s2", "A", "L2", 100, 9, "g2", 3⟩ : RecRow).score ≤ 6 := by
  have h := recommendations_score_bounds dbRec "u"
    ⟨"s2", "A", "L2", 100, 9, "g2", 3⟩ (by decide)
  exact ⟨h.2.2.2.1, h.2.2.2.2⟩
